import Mathlib

/-!
Shallow embedding of the Character CRUD service (`src/app.py`,
`src/models.py`, `src/app/schemas.py`, `src/app/main.py`).

The persistent table `characters` is modelled as a list of rows in
insertion order; the primary key is the caller-supplied integer `id`.
Each Flask handler becomes a pure function from the store (and its
arguments) to a response value paired with the resulting store.
-/

namespace CharacterAPI

/-- A row of the `characters` table (`src/models.py`, class `Character`),
which carries the same fields as the wire schema `CharacterBase`
(`src/app/schemas.py`). -/
structure Character where
  id : Int
  name : String
  height : Int
  mass : Int
  hair_color : String
  skin_color : String
  eye_color : String
  birth_year : Int
deriving DecidableEq, Repr

/-- The persisted state: rows of the `characters` table in insertion order. -/
abbrev Store := List Character

/-- One entry of the `errors` list built in `create_character` from a
pydantic `ValidationError`: the offending field name and its message. -/
structure FieldError where
  field : String
  message : String
deriving DecidableEq, Repr

/-- Pydantic validation of `schemas.CharacterBase`: `height`, `mass`,
`birth_year` are `PositiveInt` (must be greater than 0); `name`,
`hair_color`, `skin_color`, `eye_color` pass through `check_not_empty`
(must not be `""`). All violations are collected, in field declaration
order, exactly as pydantic reports them. -/
def validateCharacter (p : Character) : List FieldError :=
  (if p.name = "" then [⟨"name", "Value error, Must not be empty"⟩] else []) ++
  (if p.height ≤ 0 then [⟨"height", "Input should be greater than 0"⟩] else []) ++
  (if p.mass ≤ 0 then [⟨"mass", "Input should be greater than 0"⟩] else []) ++
  (if p.hair_color = "" then [⟨"hair_color", "Value error, Must not be empty"⟩] else []) ++
  (if p.skin_color = "" then [⟨"skin_color", "Value error, Must not be empty"⟩] else []) ++
  (if p.eye_color = "" then [⟨"eye_color", "Value error, Must not be empty"⟩] else []) ++
  (if p.birth_year ≤ 0 then [⟨"birth_year", "Input should be greater than 0"⟩] else [])

/-- Response of `POST /character/add` (`create_character` in `src/app.py`):
201 with the stored record, or 400 with a duplicate-id error, or 400 with
the collected per-field validation errors. -/
inductive CreateResult where
  | created (record : Character)
  | conflict
  | validationFailure (errors : List FieldError)
deriving DecidableEq, Repr

/-- HTTP status code attached to each `create_character` response. -/
def CreateResult.status : CreateResult → Nat
  | .created _ => 201
  | .conflict => 400
  | .validationFailure _ => 400

/-- Response of `GET /character/get/<id>` (`read_character`): the full
record, or the 400 response with body `error: Character not found`. -/
inductive GetResult where
  | found (record : Character)
  | notFound
deriving DecidableEq, Repr

/-- Response of `DELETE /character/delete/<id>` (`delete_character`):
a 200 confirmation carrying the deleted id (the code interpolates it into
the `info` message), or the 400 not-found error. -/
inductive DeleteResult where
  | deleted (deleted_id : Int)
  | notFound
deriving DecidableEq, Repr

/-- The summary projection returned by `GET /character/getAll`
(`schemas.GetAll`): only id, name, height, mass, eye_color, birth_year. -/
structure GetAll where
  id : Int
  name : String
  height : Int
  mass : Int
  eye_color : String
  birth_year : Int
deriving DecidableEq, Repr

/-- `read_characters` (`src/app.py` lines 36-49): queries the six summary
columns of every row and returns them in table order. The session only
queries, so the store is returned unchanged. -/
def read_characters (db : Store) : List GetAll × Store :=
  (db.map (fun c => ⟨c.id, c.name, c.height, c.mass, c.eye_color, c.birth_year⟩), db)

/-- `read_character` (`src/app.py` lines 52-60): first row whose `id`
matches, else the not-found error. Read-only on the store. -/
def read_character (db : Store) (character_id : Int) : GetResult × Store :=
  match db.find? (fun c => c.id == character_id) with
  | some c => (.found c, db)
  | none => (.notFound, db)

/-- `create_character` (`src/app.py` lines 63-95): pydantic validation of
the payload runs first (constructing `schemas.CharacterBase` raises before
any query); then the duplicate-id check; then the row is inserted and the
stored record returned with status 201. -/
def create_character (db : Store) (p : Character) : CreateResult × Store :=
  let errs := validateCharacter p
  if errs.isEmpty then
    match db.find? (fun c => c.id == p.id) with
    | some _ => (.conflict, db)
    | none => (.created p, db ++ [p])
  else
    (.validationFailure errs, db)

/-- `delete_character` (`src/app.py` lines 98-109): the first row whose
`id` matches is deleted and a confirmation carrying the id is returned;
if none matches, the not-found error is returned and nothing changes. -/
def delete_character (db : Store) (character_id : Int) : DeleteResult × Store :=
  match db.find? (fun c => c.id == character_id) with
  | none => (.notFound, db)
  | some _ => (.deleted character_id, db.eraseP (fun c => c.id == character_id))

/-- The spec-side summary projection of §4.1: `\x7bid, name, height, mass,
birth_year, eye_color\x7d` of a stored record. -/
def summaryOf (c : Character) : GetAll :=
  ⟨c.id, c.name, c.height, c.mass, c.eye_color, c.birth_year⟩

/-- The ids of the stored rows, in order. -/
def idsOf (db : Store) : List Int := db.map (fun c => c.id)

/-- An API request, for reasoning about all states reachable through the
four handlers. -/
inductive Op where
  | create (p : Character)
  | delete (character_id : Int)
  | get (character_id : Int)
  | listSummary
deriving DecidableEq, Repr

/-- The store produced by serving one request in state `db`. -/
def applyOp (db : Store) : Op → Store
  | .create p => (create_character db p).2
  | .delete i => (delete_character db i).2
  | .get i => (read_character db i).2
  | .listSummary => (read_characters db).2

/-- The store reached from the empty table by serving `ops` in order. -/
def runOps (ops : List Op) : Store := ops.foldl applyOp ([] : Store)

/-- Actions a handler performs on its SQLAlchemy session, in program
order. `acquire` is `next(get_db())`; `close` is an explicit
`db.close()` reached before the handler returns. -/
inductive SessionEvent where
  | acquire
  | query
  | add
  | commit
  | refresh
  | delete
  | close
deriving DecidableEq, Repr

/-- Session actions of `read_characters`: acquire, one query, return.
No explicit close on any path. -/
def read_characters_trace (_db : Store) : List SessionEvent :=
  [.acquire, .query]

/-- Session actions of `read_character`: acquire, one query, return
(found or not). No explicit close on any path. -/
def read_character_trace (_db : Store) (_character_id : Int) : List SessionEvent :=
  [.acquire, .query]

/-- Session actions of `create_character`: acquire; on validation failure
the `except` branch returns through `finally: db.close()`; on conflict the
return also passes through the `finally`; on success the insert, commit
and refresh all precede the same `finally` close. -/
def create_character_trace (db : Store) (p : Character) : List SessionEvent :=
  if (validateCharacter p).isEmpty then
    if (db.find? (fun c => c.id == p.id)).isSome then
      [.acquire, .query, .close]
    else
      [.acquire, .query, .add, .commit, .refresh, .close]
  else
    [.acquire, .close]

/-- Session actions of `delete_character`: acquire, query; on the found
path also delete and commit. No explicit close on any path. -/
def delete_character_trace (db : Store) (character_id : Int) : List SessionEvent :=
  if (db.find? (fun c => c.id == character_id)).isSome then
    [.acquire, .query, .delete, .commit]
  else
    [.acquire, .query]

/-- The sample payload of spec §8. -/
def luke : Character :=
  ⟨1, "Luke", 172, 77, "blond", "fair", "blue", 19⟩

/-- A second valid record, with id 2. -/
def leia : Character :=
  ⟨2, "Leia", 150, 49, "brown", "light", "brown", 19⟩

/-- A payload violating three rules at once: empty name, height 0,
mass -5 (spec §8 third property). -/
def invalidSample : Character :=
  ⟨2, "", 0, -5, "blond", "fair", "blue", 19⟩

/-! ## Shared lemmas -/

/-- Membership in a conditional singleton list. -/
lemma mem_ite_singleton {α : Type} {c : Prop} [Decidable c] {x a : α} :
    x ∈ (if c then [a] else []) ↔ c ∧ x = a := by
  split <;> simp_all

/-- `read_character` never changes the store. -/
lemma read_character_state (db : Store) (character_id : Int) :
    (read_character db character_id).2 = db := by
  cases h : db.find? (fun c => c.id == character_id) <;> simp [read_character, h]

/-- `read_characters` never changes the store. -/
lemma read_characters_state (db : Store) : (read_characters db).2 = db := rfl

/-- If no stored id matches, the primary-key lookup comes back empty. -/
lemma find?_id_eq_none {db : Store} {i : Int} (h : ∀ c ∈ db, c.id ≠ i) :
    db.find? (fun c => c.id == i) = none :=
  List.find?_eq_none.2 (fun c hc => by simpa using h c hc)

/-- After erasing the row with key `i` from a table with no duplicate ids,
looking `i` up again comes back empty. -/
lemma find?_id_eraseP {db : Store} {i : Int} (h : (idsOf db).Nodup) :
    (db.eraseP (fun c => c.id == i)).find? (fun c => c.id == i) = none := by
  induction db with
  | nil => rfl
  | cons c rest ih =>
    have hrest : (idsOf rest).Nodup := (List.nodup_cons.1 h).2
    by_cases hc : c.id = i
    · rw [List.eraseP_cons_of_pos (by simpa using hc)]
      apply List.find?_eq_none.2
      intro x hx
      have hcr : c.id ∉ idsOf rest := (List.nodup_cons.1 h).1
      have : x.id ≠ i := fun hxi => hcr (by
        rw [hc, ← hxi]
        exact List.mem_map_of_mem _ hx)
      simpa using this
    · rw [List.eraseP_cons_of_neg (by simpa using hc)]
      rw [List.find?_cons_of_neg _ (by simpa using hc)]
      exact ih hrest

/-- Erasing the row with key `i` from a table with no duplicate ids keeps
exactly the rows whose id differs from `i`. -/
lemma mem_eraseP_id_iff {db : Store} {i : Int} (h : (idsOf db).Nodup)
    (x : Character) :
    x ∈ db.eraseP (fun c => c.id == i) ↔ x ∈ db ∧ x.id ≠ i := by
  induction db with
  | nil => simp
  | cons c rest ih =>
    have hrest : (idsOf rest).Nodup := (List.nodup_cons.1 h).2
    have hcr : c.id ∉ idsOf rest := (List.nodup_cons.1 h).1
    by_cases hc : c.id = i
    · rw [List.eraseP_cons_of_pos (by simpa using hc)]
      constructor
      · intro hx
        refine ⟨List.mem_cons_of_mem _ hx, fun hxi => hcr ?_⟩
        rw [hc, ← hxi]
        exact List.mem_map_of_mem _ hx
      · rintro ⟨hx, hxi⟩
        rcases List.mem_cons.1 hx with rfl | hx
        · exact absurd hc hxi
        · exact hx
    · rw [List.eraseP_cons_of_neg (by simpa using hc)]
      constructor
      · intro hx
        rcases List.mem_cons.1 hx with rfl | hx
        · exact ⟨List.mem_cons_self _ _, hc⟩
        · have := (ih hrest).1 hx
          exact ⟨List.mem_cons_of_mem _ this.1, this.2⟩
      · rintro ⟨hx, hxi⟩
        rcases List.mem_cons.1 hx with rfl | hx
        · exact List.mem_cons_self _ _
        · exact List.mem_cons_of_mem _ ((ih hrest).2 ⟨hx, hxi⟩)

/-- Serving one request preserves distinctness of the stored ids. -/
lemma applyOp_preserves_nodup (db : Store) (op : Op)
    (h : (idsOf db).Nodup) : (idsOf (applyOp db op)).Nodup := by
  cases op with
  | create p =>
    show (idsOf (create_character db p).2).Nodup
    cases hv : validateCharacter p with
    | cons e es => simpa [create_character, hv] using h
    | nil =>
      cases hfind : db.find? (fun c => c.id == p.id) with
      | some c => simpa [create_character, hv, hfind] using h
      | none =>
        have hfresh : p.id ∉ idsOf db := by
          intro hmem
          rcases List.mem_map.1 hmem with ⟨c, hc, hcid⟩
          exact absurd (by simpa using hcid) (by simpa using List.find?_eq_none.1 hfind c hc)
        have hstore : (create_character db p).2 = db ++ [p] := by
          simp [create_character, hv, hfind]
        have hids : idsOf (db ++ [p]) = idsOf db ++ [p.id] := by simp [idsOf]
        rw [hstore, hids]
        exact List.Nodup.append h (List.nodup_singleton _)
          (by simpa [List.disjoint_singleton] using hfresh)
  | delete i =>
    show (idsOf (delete_character db i).2).Nodup
    cases hfind : db.find? (fun c => c.id == i) with
    | none => simpa [delete_character, hfind] using h
    | some c =>
      simp only [delete_character, hfind]
      exact h.sublist ((List.eraseP_sublist db).map _)
  | get i => simpa [applyOp, read_character_state] using h
  | listSummary => simpa [applyOp, read_characters_state] using h

/-! ## Claim theorems -/

/-- C1: for every payload that passes all Character validation rules and
whose id is not yet stored, `create` succeeds with HTTP 201 returning the
record, and a subsequent `get` of that id returns the full record equal to
the payload. -/
theorem create_fresh_then_get (db : Store) (p : Character)
    (hvalid : validateCharacter p = [])
    (hfresh : ∀ c ∈ db, c.id ≠ p.id) :
    (create_character db p).1 = .created p ∧
    ((create_character db p).1).status = 201 ∧
    (read_character (create_character db p).2 p.id).1 = .found p := by
  have hnone : db.find? (fun c => c.id == p.id) = none := find?_id_eq_none hfresh
  have hstore : (create_character db p).2 = db ++ [p] := by
    simp [create_character, hvalid, hnone]
  have hres : (create_character db p).1 = .created p := by
    simp [create_character, hvalid, hnone]
  refine ⟨hres, by rw [hres]; rfl, ?_⟩
  rw [hstore]
  simp [read_character, List.find?_append, hnone]

/-- C1 witness: the Luke payload created on the empty store. -/
theorem create_fresh_then_get_witness :
    validateCharacter luke = [] ∧
    (∀ c ∈ ([] : Store), c.id ≠ luke.id) ∧
    ((create_character [] luke).1 = .created luke ∧
     ((create_character [] luke).1).status = 201 ∧
     (read_character (create_character [] luke).2 luke.id).1 = .found luke) :=
  ⟨by decide, by decide, create_fresh_then_get [] luke (by decide) (by decide)⟩

/-- C2 counterexample: a payload whose id 1 already exists but whose name
is empty is answered with the validation-error list, not with the
duplicate-id Conflict, so the claim as stated fails. -/
theorem create_duplicate_invalid_not_conflict :
    (∃ c ∈ ([luke] : Store),
      c.id = (⟨1, "", 172, 77, "blond", "fair", "blue", 19⟩ : Character).id) ∧
    (create_character [luke] ⟨1, "", 172, 77, "blond", "fair", "blue", 19⟩).1 ≠
      .conflict ∧
    (create_character [luke] ⟨1, "", 172, 77, "blond", "fair", "blue", 19⟩).1 =
      .validationFailure [⟨"name", "Value error, Must not be empty"⟩] := by
  refine ⟨⟨luke, by decide, by decide⟩, by decide, by decide⟩

/-- C2 amended: for every store state and every payload that passes
validation and whose id already exists in the store, `create` reports
Conflict (HTTP 400) and leaves the store unchanged. -/
theorem create_duplicate_valid_conflict (db : Store) (p : Character)
    (hvalid : validateCharacter p = [])
    (hdup : ∃ c ∈ db, c.id = p.id) :
    (create_character db p).1 = .conflict ∧
    ((create_character db p).1).status = 400 ∧
    (create_character db p).2 = db := by
  obtain ⟨c, hc, hcid⟩ := hdup
  have hsome : (db.find? (fun x => x.id == p.id)).isSome :=
    List.find?_isSome.2 ⟨c, hc, by simpa using hcid⟩
  obtain ⟨c0, hfind⟩ := Option.isSome_iff_exists.1 hsome
  refine ⟨by simp [create_character, hvalid, hfind], ?_, by simp [create_character, hvalid, hfind]⟩
  have : (create_character db p).1 = .conflict := by simp [create_character, hvalid, hfind]
  rw [this]; rfl

/-- C2 amended witness: re-creating Luke while Luke is stored. -/
theorem create_duplicate_valid_conflict_witness :
    validateCharacter luke = [] ∧
    (∃ c ∈ ([luke] : Store), c.id = luke.id) ∧
    ((create_character [luke] luke).1 = .conflict ∧
     ((create_character [luke] luke).1).status = 400 ∧
     (create_character [luke] luke).2 = [luke]) :=
  ⟨by decide, ⟨luke, by decide, rfl⟩,
    create_duplicate_valid_conflict [luke] luke (by decide) ⟨luke, by decide, rfl⟩⟩

/-- C9: when a payload both fails validation and carries an already-stored
id, `create` reports the per-field validation errors, never Conflict, and
the store is unchanged: validation runs before the duplicate-id check. -/
theorem validation_precedes_conflict (db : Store) (p : Character)
    (hinvalid : validateCharacter p ≠ [])
    (_hdup : ∃ c ∈ db, c.id = p.id) :
    (create_character db p).1 = .validationFailure (validateCharacter p) ∧
    (create_character db p).1 ≠ .conflict ∧
    (create_character db p).2 = db := by
  have hne : (validateCharacter p).isEmpty = false := by
    simpa [List.isEmpty_iff] using hinvalid
  refine ⟨by simp [create_character, hne], ?_, by simp [create_character, hne]⟩
  simp [create_character, hne]

/-- C9 witness: the empty-name payload with Luke's id 1 while Luke is
stored is answered with the validation-error list. -/
theorem validation_precedes_conflict_witness :
    validateCharacter ⟨1, "", 172, 77, "blond", "fair", "blue", 19⟩ ≠ [] ∧
    (∃ c ∈ ([luke] : Store),
      c.id = (⟨1, "", 172, 77, "blond", "fair", "blue", 19⟩ : Character).id) ∧
    ((create_character [luke] ⟨1, "", 172, 77, "blond", "fair", "blue", 19⟩).1 =
       .validationFailure
         (validateCharacter ⟨1, "", 172, 77, "blond", "fair", "blue", 19⟩) ∧
     (create_character [luke] ⟨1, "", 172, 77, "blond", "fair", "blue", 19⟩).1 ≠
       .conflict ∧
     (create_character [luke] ⟨1, "", 172, 77, "blond", "fair", "blue", 19⟩).2 =
       [luke]) :=
  ⟨by decide, ⟨luke, by decide, by decide⟩,
    validation_precedes_conflict [luke] _ (by decide) ⟨luke, by decide, by decide⟩⟩

/-- C4: deleting an id with no stored record reports NotFound and leaves
the store exactly as it was. -/
theorem delete_absent_not_found (db : Store) (character_id : Int)
    (habsent : ∀ c ∈ db, c.id ≠ character_id) :
    delete_character db character_id = (.notFound, db) := by
  simp [delete_character, find?_id_eq_none habsent]

/-- C4 witness: deleting id 2 from the store holding only Luke (id 1). -/
theorem delete_absent_not_found_witness :
    (∀ c ∈ ([luke] : Store), c.id ≠ 2) ∧
    delete_character [luke] 2 = (.notFound, [luke]) :=
  ⟨by decide, delete_absent_not_found [luke] 2 (by decide)⟩

/-- C10: `get` and `list_summary` are read-only: whatever the store and
the id, and whether or not the lookup succeeds, the store afterwards is
identical to the store before. -/
theorem reads_leave_store_unchanged (db : Store) (character_id : Int) :
    (read_character db character_id).2 = db ∧
    (read_characters db).2 = db :=
  ⟨read_character_state db character_id, read_characters_state db⟩

/-- C6: `list_summary` returns exactly one summary projection per stored
record, in insertion order, never fails, keeps the store unchanged, and
returns the empty sequence on the empty store. -/
theorem read_characters_summary (db : Store) :
    (read_characters db).1 = db.map summaryOf ∧
    (read_characters db).1.length = db.length ∧
    (read_characters ([] : Store)).1 = [] ∧
    (read_characters db).2 = db :=
  ⟨rfl, by simp [read_characters], rfl, rfl⟩

/-- C3: for every payload violating at least one validation rule, `create`
reports the collected per-field error list, persists nothing, and the
listed fields are exactly the offending ones. -/
theorem create_invalid_validation_failure (db : Store) (p : Character)
    (hinvalid : validateCharacter p ≠ []) :
    (create_character db p).1 = .validationFailure (validateCharacter p) ∧
    ((create_character db p).1).status = 400 ∧
    (create_character db p).2 = db ∧
    ∀ f : String,
      (f ∈ (validateCharacter p).map FieldError.field ↔
        ((f = "name" ∧ p.name = "") ∨ (f = "height" ∧ p.height ≤ 0) ∨
         (f = "mass" ∧ p.mass ≤ 0) ∨ (f = "hair_color" ∧ p.hair_color = "") ∨
         (f = "skin_color" ∧ p.skin_color = "") ∨
         (f = "eye_color" ∧ p.eye_color = "") ∨
         (f = "birth_year" ∧ p.birth_year ≤ 0))) := by
  have hne : (validateCharacter p).isEmpty = false := by
    simpa [List.isEmpty_iff] using hinvalid
  have hres : (create_character db p).1 = .validationFailure (validateCharacter p) := by
    simp [create_character, hne]
  refine ⟨hres, by rw [hres]; rfl, by simp [create_character, hne], ?_⟩
  intro f
  simp only [validateCharacter, List.map_append,
    apply_ite (List.map FieldError.field), List.map_cons, List.map_nil,
    List.mem_append, mem_ite_singleton]
  constructor
  · rintro ((((((⟨h, rfl⟩ | ⟨h, rfl⟩) | ⟨h, rfl⟩) | ⟨h, rfl⟩) | ⟨h, rfl⟩) |
      ⟨h, rfl⟩) | ⟨h, rfl⟩) <;> simp [h]
  · rintro (⟨rfl, h⟩ | ⟨rfl, h⟩ | ⟨rfl, h⟩ | ⟨rfl, h⟩ | ⟨rfl, h⟩ | ⟨rfl, h⟩ |
      ⟨rfl, h⟩) <;> simp [h]

/-- C3 witness: the payload with empty name, height 0 and mass -5 yields
exactly the fields name, height, mass, and persists nothing. -/
theorem create_invalid_validation_failure_witness :
    validateCharacter invalidSample ≠ [] ∧
    ((create_character [] invalidSample).1 =
       .validationFailure (validateCharacter invalidSample) ∧
     (create_character [] invalidSample).2 = ([] : Store)) ∧
    ("mass" ∈ (validateCharacter invalidSample).map FieldError.field ↔
      (("mass" = "name" ∧ invalidSample.name = "") ∨
       ("mass" = "height" ∧ invalidSample.height ≤ 0) ∨
       ("mass" = "mass" ∧ invalidSample.mass ≤ 0) ∨
       ("mass" = "hair_color" ∧ invalidSample.hair_color = "") ∨
       ("mass" = "skin_color" ∧ invalidSample.skin_color = "") ∨
       ("mass" = "eye_color" ∧ invalidSample.eye_color = "") ∨
       ("mass" = "birth_year" ∧ invalidSample.birth_year ≤ 0))) ∧
    (validateCharacter invalidSample).map FieldError.field =
      ["name", "height", "mass"] :=
  ⟨by decide,
    ⟨(create_invalid_validation_failure [] invalidSample (by decide)).1,
     (create_invalid_validation_failure [] invalidSample (by decide)).2.2.1⟩,
    (create_invalid_validation_failure [] invalidSample (by decide)).2.2.2 "mass",
    by decide⟩

/-- C5: deleting a stored id returns the confirmation carrying that id,
removes exactly that record — the remainder is a subsequence of the old
store holding precisely the rows with a different id — and a subsequent
`get` of the id reports NotFound. -/
theorem delete_present_removes (db : Store) (character_id : Int)
    (hnodup : (idsOf db).Nodup)
    (hmem : ∃ c ∈ db, c.id = character_id) :
    (delete_character db character_id).1 = .deleted character_id ∧
    List.Sublist (delete_character db character_id).2 db ∧
    ((delete_character db character_id).2).length + 1 = db.length ∧
    (∀ x : Character,
      x ∈ (delete_character db character_id).2 ↔ (x ∈ db ∧ x.id ≠ character_id)) ∧
    (read_character (delete_character db character_id).2 character_id).1 =
      .notFound := by
  obtain ⟨c, hc, hcid⟩ := hmem
  have hsome : (db.find? (fun x => x.id == character_id)).isSome :=
    List.find?_isSome.2 ⟨c, hc, by simpa using hcid⟩
  obtain ⟨c0, hfind⟩ := Option.isSome_iff_exists.1 hsome
  have hstore : (delete_character db character_id).2 =
      db.eraseP (fun x => x.id == character_id) := by
    simp [delete_character, hfind]
  refine ⟨by simp [delete_character, hfind], ?_, ?_, ?_, ?_⟩
  · rw [hstore]; exact List.eraseP_sublist db
  · rw [hstore]; exact List.length_eraseP_add_one hc (by simpa using hcid)
  · intro x; rw [hstore]; exact mem_eraseP_id_iff hnodup x
  · rw [hstore]
    simp [read_character, find?_id_eraseP hnodup]

/-- C5 witness: deleting id 1 from the store holding Luke and Leia leaves
only Leia and makes `get 1` report NotFound. -/
theorem delete_present_removes_witness :
    (idsOf [luke, leia]).Nodup ∧
    (∃ c ∈ ([luke, leia] : Store), c.id = 1) ∧
    ((delete_character [luke, leia] 1).1 = .deleted 1 ∧
     ((delete_character [luke, leia] 1).2).length + 1 = 2 ∧
     (leia ∈ (delete_character [luke, leia] 1).2 ↔
       (leia ∈ ([luke, leia] : Store) ∧ leia.id ≠ 1)) ∧
     (read_character (delete_character [luke, leia] 1).2 1).1 = .notFound) :=
  ⟨by decide, ⟨luke, by decide, by decide⟩,
    (delete_present_removes [luke, leia] 1 (by decide)
      ⟨luke, by decide, by decide⟩).1,
    (delete_present_removes [luke, leia] 1 (by decide)
      ⟨luke, by decide, by decide⟩).2.2.1,
    (delete_present_removes [luke, leia] 1 (by decide)
      ⟨luke, by decide, by decide⟩).2.2.2.1 leia,
    (delete_present_removes [luke, leia] 1 (by decide)
      ⟨luke, by decide, by decide⟩).2.2.2.2⟩

/-- C7: in every store state reachable from the empty store through any
sequence of create, delete, get and list requests, no two stored records
share an id. -/
theorem reachable_ids_nodup (ops : List Op) : (idsOf (runOps ops)).Nodup := by
  suffices h : ∀ (l : List Op) (db : Store),
      (idsOf db).Nodup → (idsOf (l.foldl applyOp db)).Nodup by
    exact h ops [] (by simp [idsOf])
  intro l
  induction l with
  | nil => intro db h; exact h
  | cons op rest ih =>
    intro db h
    exact ih _ (applyOp_preserves_nodup db op h)

/-- C8: the claim that every handler closes its session on every exit
path fails on the code: only `create_character` has a `finally` that
closes; the get, getAll and delete handlers return without an explicit
close (the session acquired from `next(get_db())` is abandoned to the
generator's finalizer). -/
theorem session_close_missing :
    SessionEvent.close ∉ read_character_trace [] 1 ∧
    SessionEvent.close ∉ read_characters_trace [] ∧
    SessionEvent.close ∉ delete_character_trace [luke] 1 ∧
    SessionEvent.close ∉ delete_character_trace [] 1 ∧
    SessionEvent.close ∈ create_character_trace [] luke ∧
    SessionEvent.close ∈ create_character_trace [luke] luke ∧
    SessionEvent.close ∈ create_character_trace [] invalidSample := by
  decide

end CharacterAPI
